import Mathlib

/-!
Shallow embedding of `src/oidcendpoint/endpoint.py` (the generic endpoint
request/response pipeline of the oidcendpoint package) together with proofs
about it.

Conventions of the embedding:
* A protocol message instance (`oidcmsg.message.Message` and subclasses) is
  represented as an ordered association list of string fields (`Msg`).
  Instantiating a message class from keyword arguments yields the argument
  list itself; `'k' in msg`, `msg['k']` and `msg['k'] = v` are `msg_contains`,
  `msg_get` and `msg_set`.
* HTTP header lists are ordered lists of (name, value) string pairs.
* External collaborators (the message library's serializers/deserializers and
  `verify`, the client-authentication delegate `verify_client`) are passed in
  as explicit function parameters, mirroring the duck-typed calls in the
  source.
* Python methods are embedded as functions returning `Endpoint × result`: the
  first component is the state of `self` after the call, so that absence of
  writes to the endpoint object is expressible.
* Raised exceptions are `Except.error` values; the error type distinguishes
  the exception classes the source code distinguishes.
-/

namespace Oidcendpoint

/-- A protocol message instance: an ordered association list of fields. -/
abbrev Msg := List (String × String)

/-- Python `'k' in msg` on a message. -/
def msg_contains (m : Msg) (k : String) : Bool :=
  m.any (fun p => p.1 == k)

/-- Python `msg['k']` lookup (first binding wins, as in a dict-backed message). -/
def msg_get (m : Msg) (k : String) : Option String :=
  (m.find? (fun p => p.1 == k)).map Prod.snd

/-- Python `msg['k'] = v`: replace the value at an existing key in place,
otherwise append the new binding. -/
def msg_set (m : Msg) (k v : String) : Msg :=
  if msg_contains m k then
    m.map (fun p => if p.1 == k then (k, v) else p)
  else
    m ++ [(k, v)]

/-- An HTTP header list: an ordered list of (name, value) string pairs. -/
abbrev Headers := List (String × String)

/-- Embedding of `set_content_type` (endpoint.py lines 39-45): no-op when the
exact `('Content-type', content_type)` pair is already present, otherwise
remove every entry named `Content-type` and append the new pair at the end. -/
def set_content_type (headers : Headers) (content_type : String) : Headers :=
  if ("Content-type", content_type) ∈ headers then
    headers
  else
    (headers.filter (fun h => h.1 != "Content-type")) ++
      [("Content-type", content_type)]

theorem set_content_type_mem (headers : Headers) (ct : String) :
    ("Content-type", ct) ∈ set_content_type headers ct := by
  unfold set_content_type
  split
  · assumption
  · exact List.mem_append_right _ (List.mem_singleton.mpr rfl)

theorem set_content_type_idem (headers : Headers) (ct : String) :
    set_content_type (set_content_type headers ct) ct
      = set_content_type headers ct := by
  have h := set_content_type_mem headers ct
  conv_lhs => rw [set_content_type]
  rw [if_pos h]

theorem singleton_of_mem_of_len_le_one {α : Type} {l : List α} {a : α}
    (hm : a ∈ l) (hl : l.length ≤ 1) : l = [a] := by
  cases l with
  | nil => cases hm
  | cons x xs =>
    cases xs with
    | nil => simp only [List.mem_singleton] at hm; simp [hm]
    | cons y ys => simp at hl

theorem set_content_type_unique (headers : Headers) (ct : String)
    (h1 : headers.countP (fun h => h.1 == "Content-type") ≤ 1) :
    (set_content_type headers ct).filter (fun h => h.1 == "Content-type")
      = [("Content-type", ct)] := by
  unfold set_content_type
  split
  · rename_i hmem
    have hmemf : ("Content-type", ct) ∈
        headers.filter (fun h => h.1 == "Content-type") :=
      List.mem_filter.mpr ⟨hmem, by simp⟩
    have hlen : (headers.filter (fun h => h.1 == "Content-type")).length ≤ 1 := by
      rw [← List.countP_eq_length_filter]
      exact h1
    exact singleton_of_mem_of_len_le_one hmemf hlen
  · rw [List.filter_append]
    have hnil : (headers.filter (fun h => h.1 != "Content-type")).filter
        (fun h => h.1 == "Content-type") = [] := by
      rw [List.filter_eq_nil_iff]
      intro a ha
      have h2 := List.of_mem_filter ha
      simp only [bne_iff_ne, ne_eq] at h2
      simp [h2]
    rw [hnil]
    simp

/-- Split a character list at the first occurrence of a separator character,
returning the parts before and after it when it occurs. -/
def splitFirstChar (sep : Char) : List Char → Option (List Char × List Char)
  | [] => none
  | c :: cs =>
    if c == sep then some ([], cs)
    else
      match splitFirstChar sep cs with
      | some (a, b) => some (c :: a, b)
      | none => none

/-- Python `s.split(sep, 1)` for a one-character separator: split at the
first occurrence, returning the part before it and, when it occurs, the part
after it. -/
def split1 (s : String) (sep : Char) : String × Option String :=
  match splitFirstChar sep s.toList with
  | some (a, b) => (String.mk a, some (String.mk b))
  | none => (s, none)

/-- Split a character list at every occurrence of a separator character. -/
def splitAllChar (sep : Char) : List Char → List (List Char)
  | [] => [[]]
  | x :: xs =>
    let r := splitAllChar sep xs
    if x == sep then [] :: r
    else
      match r with
      | [] => [[x]]
      | h :: t => (x :: h) :: t

/-- The result shape of `urllib.parse.urlparse`: a six-tuple of URL parts. -/
structure UrlParts where
  scheme : String
  netloc : String
  path : String
  params : String
  query : String
  fragment : String
deriving Repr, DecidableEq

/-- Characters allowed in a URL scheme by `urllib.parse`. -/
def scheme_char (c : Char) : Bool :=
  c.isAlphanum || c == '+' || c == '-' || c == '.'

/-- Modelled from the external `urllib.parse` library: split a leading
`scheme:` off a URL when the part before the first colon is a nonempty run
of scheme characters; otherwise leave the URL unchanged. -/
def splitScheme (url : String) : String × String :=
  match split1 url ':' with
  | (before, some rest) =>
    if before ≠ "" ∧ before.toList.all scheme_char then
      (String.mk (before.toList.map Char.toLower), rest)
    else
      ("", url)
  | (_, none) => ("", url)

/-- Modelled from the external `urllib.parse` library: the network-location
part extends to the first of a slash, question mark or hash character. -/
def splitNetloc (s : String) : String × String :=
  let cs := s.toList
  let n := cs.takeWhile (fun c => !(c == '/' || c == '?' || c == '#'))
  (String.mk n, String.mk (cs.drop n.length))

/-- Modelled from the external `urllib.parse` library: split `;`-parameters
off the last path segment, as `urlparse` does on top of `urlsplit`. -/
def splitParams (url : String) : String × String :=
  let cs := url.toList
  let lastSlash := ((List.range cs.length).filter
    (fun i => cs.getD i ' ' == '/')).getLast?
  let start := match lastSlash with | some j => j | none => 0
  match (cs.drop start).findIdx? (fun c => c == ';') with
  | some k =>
    let i := start + k
    (String.mk (cs.take i), String.mk (cs.drop (i + 1)))
  | none => (url, "")

/-- Modelled from the external `urllib.parse.urlparse`: strip the scheme,
then the `//netloc` part, then split off the fragment at the first `#`, then
the query at the first `?`, and finally `;`-parameters from the path. -/
def urlparse (url : String) : UrlParts :=
  let (scheme, url) := splitScheme url
  let (netloc, url) :=
    if List.isPrefixOf ['/', '/'] url.toList then
      splitNetloc (String.mk (url.toList.drop 2))
    else ("", url)
  let (url, fragment) :=
    match split1 url '#' with
    | (a, some f) => (a, f)
    | (a, none) => (a, "")
  let (url, query) :=
    match split1 url '?' with
    | (a, some q) => (a, q)
    | (a, none) => (a, "")
  let (path, params) :=
    if url.toList.contains ';' then splitParams url else (url, "")
  ⟨scheme, netloc, path, params, query, fragment⟩

/-- Value of a hexadecimal digit, when the character is one. -/
def hexVal (c : Char) : Option Nat :=
  if '0' ≤ c ∧ c ≤ '9' then some (c.toNat - '0'.toNat)
  else if 'a' ≤ c ∧ c ≤ 'f' then some (c.toNat - 'a'.toNat + 10)
  else if 'A' ≤ c ∧ c ≤ 'F' then some (c.toNat - 'A'.toNat + 10)
  else none

/-- Percent-decoding over a character list: `%XX` becomes the character with
that code, `+` becomes a space, anything else passes through. -/
def percentDecodeAux : List Char → List Char
  | [] => []
  | '%' :: a :: b :: rest =>
    match hexVal a, hexVal b with
    | some x, some y => Char.ofNat (16 * x + y) :: percentDecodeAux rest
    | _, _ => '%' :: percentDecodeAux (a :: b :: rest)
  | '+' :: rest => ' ' :: percentDecodeAux rest
  | c :: rest => c :: percentDecodeAux rest

/-- Form-urlencoded percent-decoding of a string. -/
def percentDecode (s : String) : String :=
  String.mk (percentDecodeAux s.toList)

/-- Modelled from the spec: form-urlencoded decoding, the behaviour of the
external message library's `deserialize(raw, "urlencoded")` (the message
library `oidcmsg` is an external collaborator of this core). Components are
separated by `&`, each component splits at its first `=` into a
percent-decoded key and value; components without an `=` and empty
components are dropped. -/
def formUrlencodedDecode (s : String) : Msg :=
  (splitAllChar '&' s.toList).filterMap (fun comp =>
    if comp = [] then none
    else
      match splitFirstChar '=' comp with
      | some (k, v) =>
        some (percentDecode (String.mk k), percentDecode (String.mk v))
      | none => none)

/-- The fields of the shared execution context (`endpoint_context`) that the
pipeline reads: the key registry, the SSL-verification flag and whether an
event sink is configured. -/
structure EndpointContext where
  keyjar : String
  verify_ssl : Bool
  events : Bool

/-- Keyword arguments threaded through `parse_request` and its hooks; opaque
to the pipeline itself. -/
abbrev Kw := List (String × String)

/-- A post-parse hook: receives (context, request, client_id, kwargs) and
returns a possibly new request value. -/
abbrev PostParseHook := EndpointContext → Msg → String → Kw → Msg

/-- The keyword arguments of `do_response` that the pipeline itself reads
(`http_headers`, `fragment_enc`, `return_uri`); an absent field is an absent
dictionary key. -/
structure RespKwargs where
  http_headers : Option Headers
  fragment_enc : Option Bool
  return_uri : Option String

/-- A pre-construct or post-construct hook: receives (context, value,
request, kwargs) and returns a possibly new value. -/
abbrev ConstructHook := EndpointContext → Msg → Msg → RespKwargs → Msg

/-- The `Endpoint` object: the class-level configuration attributes and the
instance attributes set by `__init__` (`keyjar`, the three hook lists, and
the stored `kwargs`). -/
structure Endpoint where
  request_format : String
  request_placement : String
  response_format : String
  response_placement : String
  client_auth_method : String
  endpoint_name : String
  keyjar : String
  pre_construct : List ConstructHook
  post_construct : List ConstructHook
  post_parse_request : List PostParseHook
  kwargs : Kw

/-- Outcome of the external client-authentication delegate `verify_client`:
identity info, the `UnknownOrNoAuthnMethod` exception, or any other raised
exception. -/
inductive AuthnOutcome
  | ok (info : Msg)
  | unknownOrNoAuthnMethod
  | failure (detail : String)
deriving Repr, DecidableEq

/-- Outcome of the external message-library `verify` call when it raises:
the three exception classes `parse_request` catches, and anything else. -/
inductive VerifyError
  | missingRequiredAttribute (detail : String)
  | missingRequiredValue (detail : String)
  | valueError (detail : String)
  | other (detail : String)
deriving Repr, DecidableEq

/-- Exceptions that escape `parse_request`: the `UnAuthorizedClient` it
raises itself, a propagated client-authentication exception other than
`UnknownOrNoAuthnMethod`, and a propagated verification exception other than
the three caught classes. -/
inductive PipelineError
  | unAuthorizedClient
  | clientAuthnFailure (detail : String)
  | verifyFailure (detail : String)
deriving Repr, DecidableEq

/-- The raw request argument of `parse_request`: a falsy value (`None`),
a mapping, or a wire-format string. -/
inductive RawRequest
  | noneReq
  | dict (m : Msg)
  | str (s : String)
deriving Repr, DecidableEq

/-- Embedding of `self.error_cls(error=..., error_description=...)`: a
`ResponseMessage` carrying exactly the two keyword arguments. -/
def error_cls (error error_description : String) : Msg :=
  [("error", error), ("error_description", error_description)]

/-- Embedding of the request-decoding step of `parse_request` (endpoint.py
lines 79-95). `deserialize raw fmt` stands for the external
`self.request_cls().deserialize(raw, fmt)` and `jwtDeserialize` for the
`jwt` branch, which additionally receives the context keyjar and SSL flag.
A mapping request goes to the request-class constructor, here the identity
on field lists; a falsy request (`None`, empty mapping or empty string)
yields an empty request instance. -/
def decode_request (e : Endpoint) (ctx : EndpointContext) (raw : RawRequest)
    (deserialize : String → String → Msg)
    (jwtDeserialize : String → String → Bool → Msg) : Msg :=
  match raw with
  | .noneReq => []
  | .dict [] => []
  | .dict m => m
  | .str "" => []
  | .str s =>
    if e.request_format = "jwt" then
      jwtDeserialize s ctx.keyjar ctx.verify_ssl
    else if e.request_format = "url" then
      deserialize (urlparse s).query "urlencoded"
    else
      deserialize s e.request_format

/-- Embedding of `Endpoint.client_authentication` (endpoint.py lines
138-149): delegates to the external `verify_client(endpoint_context,
request, auth)`. Returned as a pair whose first component is `self` after
the call. -/
def client_authentication (e : Endpoint) (ctx : EndpointContext)
    (request : Msg) (auth : Option String)
    (verify_client : EndpointContext → Msg → Option String → AuthnOutcome) :
    Endpoint × AuthnOutcome :=
  (e, verify_client ctx request auth)

/-- Result of the client-resolution block of `parse_request` (endpoint.py
lines 98-115): either the (possibly client-tagged) request together with the
resolved client id, or an exception aborting the parse. -/
inductive ClientResolution
  | cont (req : Msg) (client_id : String)
  | abort (err : PipelineError)

/-- Embedding of the client-resolution block of `parse_request` (endpoint.py
lines 98-115): on `UnknownOrNoAuthnMethod` the empty required method is
tolerated (with the resolved client id left as the empty string) and a
non-empty one raises `UnAuthorizedClient`; on identity info carrying a
`client_id` the request is tagged with it; otherwise the resolved id falls
back to the request field, defaulting to the empty string. -/
def resolve_client (e : Endpoint) (outcome : AuthnOutcome) (req : Msg) :
    ClientResolution :=
  match outcome with
  | .failure d => .abort (.clientAuthnFailure d)
  | .unknownOrNoAuthnMethod =>
    if e.client_auth_method = "" then .cont req ""
    else .abort .unAuthorizedClient
  | .ok info =>
    match msg_get info "client_id" with
    | some cid => .cont (msg_set req "client_id" cid) cid
    | none =>
      match msg_get req "client_id" with
      | some cid => .cont req cid
      | none => .cont req ""

/-- Embedding of `Endpoint.do_post_parse_request` (endpoint.py lines
151-155): fold the configured post-parse hooks over the request in order,
threading each hook's returned value into the next, and return the chain's
final value. -/
def do_post_parse_request (e : Endpoint) (ctx : EndpointContext)
    (request : Msg) (client_id : String) (kwargs : Kw) : Endpoint × Msg :=
  (e, e.post_parse_request.foldl
    (fun req meth => meth ctx req client_id kwargs) request)

/-- Embedding of the tail of `Endpoint.parse_request` (endpoint.py lines
117-136), from the `keyjar` lookup on: given the outcome of the
client-resolution block, verify the request — converting the three caught
exception classes into an `invalid_request` error instance and propagating
any other — then run the post-parse hook chain and return. The chain's
value is bound and discarded exactly as the source statement
`self.do_post_parse_request(...)` discards it, and `return req` returns the
verified request. The `keyjar` binding mirrors the
`try: keyjar = self.keyjar` block; the attribute is always set by
`__init__`, so the `AttributeError` branch is dead. -/
def parse_request_tail (e : Endpoint) (ctx : EndpointContext)
    (resolution : ClientResolution)
    (verify : Msg → String → String → Except VerifyError Unit)
    (kwargs : Kw) : Endpoint × Except PipelineError Msg :=
  match resolution with
  | .abort err => (e, .error err)
  | .cont req client_id =>
    let keyjar := e.keyjar
    match verify req keyjar client_id with
    | .error (.missingRequiredAttribute d) =>
      (e, .ok (error_cls "invalid_request" d))
    | .error (.valueError d) =>
      (e, .ok (error_cls "invalid_request" d))
    | .error (.missingRequiredValue d) =>
      (e, .ok (error_cls "invalid_request" d))
    | .error (.other d) => (e, .error (.verifyFailure d))
    | .ok _ =>
      let _chain := (do_post_parse_request e ctx req client_id kwargs).2
      (e, .ok req)

/-- Embedding of `Endpoint.parse_request` (endpoint.py lines 67-136):
decode the raw request, resolve the client through the authentication
delegate, then verify and run the post-parse chain via
`parse_request_tail`. -/
def parse_request (e : Endpoint) (ctx : EndpointContext) (raw : RawRequest)
    (auth : Option String)
    (deserialize : String → String → Msg)
    (jwtDeserialize : String → String → Bool → Msg)
    (verify_client : EndpointContext → Msg → Option String → AuthnOutcome)
    (verify : Msg → String → String → Except VerifyError Unit)
    (kwargs : Kw) : Endpoint × Except PipelineError Msg :=
  let req := decode_request e ctx raw deserialize jwtDeserialize
  let outcome := (client_authentication e ctx req auth verify_client).2
  parse_request_tail e ctx (resolve_client e outcome req) verify kwargs

/-- Embedding of `Endpoint.do_pre_construct` (endpoint.py lines 157-163):
fold the configured pre-construct hooks over the response arguments in
order. -/
def do_pre_construct (e : Endpoint) (ctx : EndpointContext)
    (response_args : Msg) (request : Msg) (kwargs : RespKwargs) :
    Endpoint × Msg :=
  (e, e.pre_construct.foldl
    (fun args meth => meth ctx args request kwargs) response_args)

/-- Embedding of `Endpoint.do_post_construct` (endpoint.py lines 165-171):
fold the configured post-construct hooks over the response value in
order. -/
def do_post_construct (e : Endpoint) (ctx : EndpointContext)
    (response_args : Msg) (request : Msg) (kwargs : RespKwargs) :
    Endpoint × Msg :=
  (e, e.post_construct.foldl
    (fun args meth => meth ctx args request kwargs) response_args)

/-- Embedding of `Endpoint.construct` (endpoint.py lines 183-202): run the
pre-construct hooks over the response arguments, instantiate the response
class from the resulting arguments (the identity on field lists here), and
run the post-construct hooks over that instance. -/
def construct (e : Endpoint) (ctx : EndpointContext) (response_args : Msg)
    (request : Msg) (kwargs : RespKwargs) : Endpoint × Msg :=
  let args := (do_pre_construct e ctx response_args request kwargs).2
  let response := args
  do_post_construct e ctx response request kwargs

/-- Embedding of `Endpoint.response_info` (endpoint.py lines 204-206): a
direct delegation to `construct`. -/
def response_info (e : Endpoint) (ctx : EndpointContext) (response_args : Msg)
    (request : Msg) (kwargs : RespKwargs) : Endpoint × Msg :=
  construct e ctx response_args request kwargs

/-- The external message-library serializers `do_response` calls on the
response instance: `to_json`, `to_urlencoded` and `request(uri,
fragment_enc)` (the redirect renderer). -/
structure SerOps where
  to_json : Msg → String
  to_urlencoded : Msg → String
  request : Msg → String → Bool → String

/-- Modelled from the spec: `OAUTH2_NOCACHE_HEADERS` is imported from
`oidcendpoint.util`, which is not among the given sources; the spec
describes it as the fixed pair of no-cache-directive headers (cache-control
and pragma no-cache) appended unconditionally. -/
def OAUTH2_NOCACHE_HEADERS : Headers :=
  [("Cache-Control", "no-store"), ("Pragma", "no-cache")]

/-- A value sitting in the `response` slot of a returned dictionary: either
a serialized string or a message instance. -/
inductive RespVal
  | str (s : String)
  | msg (m : Msg)
deriving Repr, DecidableEq

/-- A Python value `do_response` can return: the response message instance
itself (the error short-circuit at endpoint.py lines 215-216), or the
`{'response': ..., 'http_headers': ...}` dictionary of line 252. The
`dict` constructor keeps each dictionary slot optional so that mappings
without an `http_headers` key are also expressible. -/
inductive DoResponseRet
  | bare (m : Msg)
  | dict (response : RespVal) (http_headers : Option Headers)
deriving Repr, DecidableEq

/-- Exceptions that escape `do_response`: the `ValueError` for an unknown
response placement and the `KeyError` for a missing `return_uri`. -/
inductive DoResponseErr
  | valueError (detail : String)
  | keyError (key : String)
deriving Repr, DecidableEq

/-- Embedding of the header-finishing tail of `do_response` (endpoint.py
lines 241-250): when a content type was determined it is set on the
caller-supplied header list, or a fresh singleton list is created when none
was supplied; otherwise the list starts empty; the no-cache headers are then
appended. -/
def finish_http_headers (kwargs : RespKwargs) (content_type : String) :
    Headers :=
  let http_headers :=
    if content_type ≠ "" then
      match kwargs.http_headers with
      | some hs => set_content_type hs content_type
      | none => [("Content-type", content_type)]
    else []
  http_headers ++ OAUTH2_NOCACHE_HEADERS

/-- Embedding of `Endpoint.do_response` (endpoint.py lines 208-252): obtain
the response via `response_info`; return it bare when it carries an `error`
field; otherwise select serialization and content type by placement and
format, raising `ValueError` on an unknown placement; finish the header list
and return the response dictionary. -/
def do_response (e : Endpoint) (ctx : EndpointContext) (ops : SerOps)
    (response_args : Msg) (request : Msg) (kwargs : RespKwargs) :
    Endpoint × Except DoResponseErr DoResponseRet :=
  let _response := (response_info e ctx response_args request kwargs).2
  (e,
    if msg_contains _response "error" then
      .ok (.bare _response)
    else
      let branch : Except DoResponseErr (String × String) :=
        if e.response_placement = "body" then
          if e.response_format = "json" then
            .ok ("application/json", ops.to_json _response)
          else
            .ok ("application/x-www-form-urlencoded", ops.to_urlencoded _response)
        else if e.response_placement = "url" then
          let fragment_enc :=
            match kwargs.fragment_enc with
            | some b => b
            | none => false
          match kwargs.return_uri with
          | none => .error (.keyError "return_uri")
          | some uri =>
            if fragment_enc then .ok ("", ops.request _response uri true)
            else .ok ("", ops.request _response uri false)
        else
          .error (.valueError
            ("Don\x27t know where that is: \x27" ++ e.response_placement))
      match branch with
      | .error err => .error err
      | .ok (content_type, resp) =>
        .ok (.dict (.str resp) (some (finish_http_headers kwargs content_type))))

/-! Concrete fixtures for evaluating the pipeline on closed inputs. -/

/-- A concrete execution context. -/
def ctx0 : EndpointContext := ⟨"KEYJAR", true, false⟩

/-- A concrete deserializer: the form-urlencoded decoder for format
`urlencoded`, the empty message for any other format. -/
def des0 : String → String → Msg :=
  fun raw fmt => if fmt = "urlencoded" then formUrlencodedDecode raw else []

/-- A concrete stub for the jwt deserializer. -/
def jwt0 : String → String → Bool → Msg := fun _ _ _ => []

/-- A delegate that always signals that no recognized authentication method
was used. -/
def authnNone : EndpointContext → Msg → Option String → AuthnOutcome :=
  fun _ _ _ => .unknownOrNoAuthnMethod

/-- A verifier that always succeeds. -/
def verifyOk : Msg → String → String → Except VerifyError Unit :=
  fun _ _ _ => .ok ()

/-- A concrete rendering of a field list, used by the concrete
serializers. -/
def renderPairs (m : Msg) : String :=
  m.foldl (fun acc p => acc ++ p.1 ++ "=" ++ p.2 ++ ";") ""

/-- Concrete serializers. -/
def ops0 : SerOps :=
  ⟨fun m => "json:" ++ renderPairs m,
   fun m => "form:" ++ renderPairs m,
   fun m uri frag =>
     uri ++ (if frag then "#" else "?") ++ renderPairs m⟩

/-- An endpoint with the class-attribute defaults of `Endpoint` (request
format urlencoded, response json in the body, no required
client-authentication method) and the empty hook lists `__init__`
installs. -/
def defaultEndpoint : Endpoint :=
  ⟨"urlencoded", "query", "json", "body", "", "", "KEYJAR", [], [], [], []⟩

/-! Claim C3. -/

/-- Claim C3, counterexample: on a header list that already contains the
exact `(Content-type, C)` pair next to a second `Content-type` entry,
`set_content_type` is the identity, so its result has two entries named
`Content-type`, not exactly one. -/
theorem claim_C3_counterexample :
    set_content_type [("Content-type", "a"), ("Content-type", "text/html")]
        "text/html"
      = [("Content-type", "a"), ("Content-type", "text/html")]
    ∧ ¬ (([("Content-type", "a"), ("Content-type", "text/html")] : Headers).countP
        (fun h => h.1 == "Content-type") = 1) := by
  constructor
  · decide
  · decide

/-- Claim C3 (amended): for every header list H and content type C,
`set_content_type (set_content_type H C) C = set_content_type H C`; and
whenever H contains at most one entry named `Content-type`, the result of
`set_content_type H C` contains exactly one entry named `Content-type`,
namely `(Content-type, C)`. -/
theorem claim_C3_amended (H : Headers) (C : String) :
    set_content_type (set_content_type H C) C = set_content_type H C
    ∧ (H.countP (fun h => h.1 == "Content-type") ≤ 1 →
        (set_content_type H C).filter (fun h => h.1 == "Content-type")
          = [("Content-type", C)]) :=
  ⟨set_content_type_idem H C, fun h1 => set_content_type_unique H C h1⟩

/-- Claim C3, witness: the amended statement evaluated on a concrete header
list with no Content-type entry. -/
theorem claim_C3_witness :
    set_content_type (set_content_type [("Accept", "x")] "application/json")
        "application/json"
      = set_content_type [("Accept", "x")] "application/json"
    ∧ (set_content_type [("Accept", "x")] "application/json").filter
        (fun h => h.1 == "Content-type") = [("Content-type", "application/json")] := by
  have h := claim_C3_amended [("Accept", "x")] "application/json"
  exact ⟨h.1, h.2 (by decide)⟩

/-! Claim C1. -/

/-- An endpoint whose single post-parse hook replaces the request with a
fresh value. -/
def replacingHookEndpoint : Endpoint :=
  { defaultEndpoint with
    post_parse_request := [fun _ _ _ _ => [("replaced", "yes")]] }

/-- Claim C1, counterexample: for an endpoint whose single post-parse hook
replaces the request, the hook chain produces the replacement, yet
`parse_request` returns the originally decoded request, so its result is not
the chain's final value. -/
theorem claim_C1_counterexample :
    (parse_request replacingHookEndpoint ctx0 (.dict [("a", "b")]) none
        des0 jwt0 authnNone verifyOk []).2 = .ok [("a", "b")]
    ∧ (do_post_parse_request replacingHookEndpoint ctx0 [("a", "b")] "" []).2
        = [("replaced", "yes")]
    ∧ ([("a", "b")] : Msg) ≠ [("replaced", "yes")] :=
  ⟨rfl, rfl, by decide⟩

/-- Claim C1 (amended): the post-parse hook chain does run in configured
order with each hook's returned request value threaded into the next, and
`do_post_parse_request` returns the chain's final value; but `parse_request`
discards that value: its result is the same whatever hook list is
configured, namely the decoded, client-tagged, verified request. -/
theorem claim_C1_amended (e : Endpoint) (L : List PostParseHook)
    (ctx : EndpointContext) (raw : RawRequest) (auth : Option String)
    (des : String → String → Msg) (jwt : String → String → Bool → Msg)
    (vc : EndpointContext → Msg → Option String → AuthnOutcome)
    (verify : Msg → String → String → Except VerifyError Unit) (kw : Kw)
    (req : Msg) (cid : String) :
    (do_post_parse_request e ctx req cid kw).2
      = e.post_parse_request.foldl (fun r meth => meth ctx r cid kw) req
    ∧ (parse_request { e with post_parse_request := L } ctx raw auth des jwt
          vc verify kw).2
      = (parse_request { e with post_parse_request := [] } ctx raw auth des
          jwt vc verify kw).2 := by
  refine ⟨rfl, ?_⟩
  have hd : decode_request { e with post_parse_request := L } ctx raw des jwt
      = decode_request { e with post_parse_request := [] } ctx raw des jwt := by
    cases raw <;> rfl
  have hr : ∀ (out : AuthnOutcome) (R : Msg),
      resolve_client { e with post_parse_request := L } out R
        = resolve_client { e with post_parse_request := [] } out R := by
    intro out R
    cases out <;> rfl
  have ha : ∀ res : ClientResolution,
      (parse_request_tail { e with post_parse_request := L } ctx res verify kw).2
        = (parse_request_tail { e with post_parse_request := [] } ctx res verify kw).2 := by
    intro res
    cases res with
    | abort err => rfl
    | cont r cid =>
      cases hv : verify r e.keyjar cid with
      | ok u => simp only [parse_request_tail, hv]
      | error err => cases err <;> simp only [parse_request_tail, hv]
  show (parse_request_tail { e with post_parse_request := L } ctx
      (resolve_client { e with post_parse_request := L }
        (vc ctx (decode_request { e with post_parse_request := L } ctx raw des jwt) auth)
        (decode_request { e with post_parse_request := L } ctx raw des jwt))
      verify kw).2 = _
  rw [hd, hr]
  exact ha _

/-! Claim C2. -/

/-- Claim C2, counterexample: on a response carrying an `error` field,
`do_response` returns the response instance itself, which is not a mapping
`{response: <value>}` (with or without an `http_headers` key). -/
theorem claim_C2_counterexample :
    (do_response defaultEndpoint ctx0 ops0 [("error", "invalid_request")] []
        ⟨none, none, none⟩).2
      = .ok (.bare [("error", "invalid_request")])
    ∧ DoResponseRet.bare [("error", "invalid_request")]
      ≠ .dict (.msg [("error", "invalid_request")]) none :=
  ⟨rfl, by decide⟩

/-- Claim C2 (amended): for every call to `do_response` whose
`response_info` result carries an `error` field, `do_response` returns that
response value itself, bare — not wrapped in a `{response: ...}` mapping —
with no `http_headers`, no serialization applied and no headers added. -/
theorem claim_C2_amended (e : Endpoint) (ctx : EndpointContext) (ops : SerOps)
    (response_args request : Msg) (kwargs : RespKwargs)
    (herr : msg_contains
        (response_info e ctx response_args request kwargs).2 "error" = true) :
    (do_response e ctx ops response_args request kwargs).2
      = .ok (.bare (response_info e ctx response_args request kwargs).2) := by
  simp only [do_response, herr, if_true]

/-- Claim C2, witness: the amended statement evaluated on a concrete error
response. -/
theorem claim_C2_witness :
    (do_response defaultEndpoint ctx0 ops0
        [("error", "access_denied"), ("error_description", "no")] []
        ⟨some [("X", "y")], none, none⟩).2
      = .ok (.bare [("error", "access_denied"), ("error_description", "no")]) :=
  claim_C2_amended defaultEndpoint ctx0 ops0
    [("error", "access_denied"), ("error_description", "no")] []
    ⟨some [("X", "y")], none, none⟩ rfl

/-! Claim C4. -/

/-- Claim C4: when schema verification of the (decoded, client-resolved)
request raises a missing-required-attribute error, a
missing-required-value error or a generic value error, `parse_request`
catches it and returns an error instance with `error = invalid_request` and
`error_description` equal to the failure detail; any other verification
exception propagates to the caller unmodified. -/
theorem claim_C4 (e : Endpoint) (ctx : EndpointContext) (raw : RawRequest)
    (auth : Option String)
    (des : String → String → Msg) (jwt : String → String → Bool → Msg)
    (vc : EndpointContext → Msg → Option String → AuthnOutcome)
    (verify : Msg → String → String → Except VerifyError Unit) (kw : Kw)
    (req : Msg) (cid : String) (d : String)
    (hres : resolve_client e (vc ctx (decode_request e ctx raw des jwt) auth)
        (decode_request e ctx raw des jwt) = .cont req cid) :
    ((verify req e.keyjar cid = .error (.missingRequiredAttribute d)
      ∨ verify req e.keyjar cid = .error (.missingRequiredValue d)
      ∨ verify req e.keyjar cid = .error (.valueError d)) →
      (parse_request e ctx raw auth des jwt vc verify kw).2
        = .ok (error_cls "invalid_request" d))
    ∧ (verify req e.keyjar cid = .error (.other d) →
      (parse_request e ctx raw auth des jwt vc verify kw).2
        = .error (.verifyFailure d)) := by
  constructor
  · intro hv
    show (parse_request_tail e ctx
        (resolve_client e (vc ctx (decode_request e ctx raw des jwt) auth)
          (decode_request e ctx raw des jwt)) verify kw).2 = _
    rw [hres]
    rcases hv with hv | hv | hv <;> simp only [parse_request_tail, hv]
  · intro hv
    show (parse_request_tail e ctx
        (resolve_client e (vc ctx (decode_request e ctx raw des jwt) auth)
          (decode_request e ctx raw des jwt)) verify kw).2 = _
    rw [hres]
    simp only [parse_request_tail, hv]

/-- Claim C4, witness: the statement evaluated on concrete verifiers, one
raising a missing-required-attribute error and one raising an unrelated
exception. -/
theorem claim_C4_witness :
    (parse_request defaultEndpoint ctx0 (.dict [("a", "b")]) none des0 jwt0
        authnNone
        (fun _ _ _ => .error (.missingRequiredAttribute "Missing required attribute foo"))
        []).2
      = .ok (error_cls "invalid_request" "Missing required attribute foo")
    ∧ (parse_request defaultEndpoint ctx0 (.dict [("a", "b")]) none des0 jwt0
        authnNone (fun _ _ _ => .error (.other "key jar exploded")) []).2
      = .error (.verifyFailure "key jar exploded") :=
  ⟨(claim_C4 defaultEndpoint ctx0 (.dict [("a", "b")]) none des0 jwt0
      authnNone
      (fun _ _ _ => .error (.missingRequiredAttribute "Missing required attribute foo"))
      [] [("a", "b")] "" "Missing required attribute foo" rfl).1 (Or.inl rfl),
   (claim_C4 defaultEndpoint ctx0 (.dict [("a", "b")]) none des0 jwt0
      authnNone (fun _ _ _ => .error (.other "key jar exploded")) []
      [("a", "b")] "" "key jar exploded" rfl).2 rfl⟩

/-! Claim C5. -/

/-- Claim C5: when the client-authentication delegate signals that no
recognized authentication method was used, an endpoint whose required
client-authentication method is empty continues — proceeding into
verification with the decoded request unchanged (so with any `client_id` it
already carries) and the empty resolved client id — and never yields the
`UnAuthorizedClient` failure, while an endpoint with a non-empty required
method aborts by raising `UnAuthorizedClient`. -/
theorem claim_C5 (e : Endpoint) (ctx : EndpointContext) (raw : RawRequest)
    (auth : Option String)
    (des : String → String → Msg) (jwt : String → String → Bool → Msg)
    (vc : EndpointContext → Msg → Option String → AuthnOutcome)
    (verify : Msg → String → String → Except VerifyError Unit) (kw : Kw)
    (hauth : vc ctx (decode_request e ctx raw des jwt) auth
        = .unknownOrNoAuthnMethod) :
    (e.client_auth_method = "" →
      (parse_request e ctx raw auth des jwt vc verify kw).2
        = (parse_request_tail e ctx
            (.cont (decode_request e ctx raw des jwt) "") verify kw).2
      ∧ (parse_request e ctx raw auth des jwt vc verify kw).2
          ≠ .error .unAuthorizedClient)
    ∧ (e.client_auth_method ≠ "" →
      (parse_request e ctx raw auth des jwt vc verify kw).2
        = .error .unAuthorizedClient) := by
  have hshape : ∀ (r : Msg) (c : String),
      (parse_request_tail e ctx (.cont r c) verify kw).2
        ≠ .error .unAuthorizedClient := by
    intro r c
    cases hv : verify r e.keyjar c with
    | ok u => simp only [parse_request_tail, hv]; intro h; cases h
    | error err =>
      cases err <;> simp only [parse_request_tail, hv] <;> intro h <;> cases h
  constructor
  · intro hm
    have hpr : (parse_request e ctx raw auth des jwt vc verify kw).2
        = (parse_request_tail e ctx
            (.cont (decode_request e ctx raw des jwt) "") verify kw).2 := by
      show (parse_request_tail e ctx
          (resolve_client e (vc ctx (decode_request e ctx raw des jwt) auth)
            (decode_request e ctx raw des jwt)) verify kw).2 = _
      rw [hauth]
      simp only [resolve_client, hm, if_pos]
    exact ⟨hpr, hpr ▸ hshape _ _⟩
  · intro hm
    show (parse_request_tail e ctx
        (resolve_client e (vc ctx (decode_request e ctx raw des jwt) auth)
          (decode_request e ctx raw des jwt)) verify kw).2 = _
    rw [hauth]
    simp only [resolve_client, hm, if_neg]
    rfl

/-- Claim C5, witness: the statement evaluated on a concrete endpoint with
no required authentication method and on one requiring a method. -/
theorem claim_C5_witness :
    ((parse_request defaultEndpoint ctx0 (.dict [("client_id", "abc")]) none
        des0 jwt0 authnNone verifyOk []).2
      = (parse_request_tail defaultEndpoint ctx0
          (.cont [("client_id", "abc")] "") verifyOk []).2
    ∧ (parse_request defaultEndpoint ctx0 (.dict [("client_id", "abc")]) none
        des0 jwt0 authnNone verifyOk []).2 ≠ .error .unAuthorizedClient)
    ∧ (parse_request { defaultEndpoint with
          client_auth_method := "client_secret_basic" } ctx0
        (.dict [("client_id", "abc")]) none des0 jwt0 authnNone verifyOk []).2
      = .error .unAuthorizedClient :=
  ⟨(claim_C5 defaultEndpoint ctx0 (.dict [("client_id", "abc")]) none des0
      jwt0 authnNone verifyOk [] rfl).1 rfl,
   (claim_C5 { defaultEndpoint with
        client_auth_method := "client_secret_basic" } ctx0
      (.dict [("client_id", "abc")]) none des0 jwt0 authnNone verifyOk []
      rfl).2 (by decide)⟩

/-! Claim C6. -/

/-- Claim C6: for every endpoint whose response placement is neither `body`
nor `url`, `do_response` on a non-error response raises the configuration
`ValueError` — it does not return any response mapping, and the fault is not
converted into an error response value. -/
theorem claim_C6 (e : Endpoint) (ctx : EndpointContext) (ops : SerOps)
    (response_args request : Msg) (kwargs : RespKwargs)
    (hb : e.response_placement ≠ "body") (hu : e.response_placement ≠ "url")
    (herr : msg_contains
        (response_info e ctx response_args request kwargs).2 "error" = false) :
    (do_response e ctx ops response_args request kwargs).2
      = .error (.valueError
          ("Don\x27t know where that is: \x27" ++ e.response_placement)) := by
  simp [do_response, herr, hb, hu]

/-- Claim C6, witness: the statement evaluated on an endpoint configured
with the unknown placement `between`. -/
theorem claim_C6_witness :
    (do_response { defaultEndpoint with response_placement := "between" }
        ctx0 ops0 [("subject", "acct:foo@example.com")] []
        ⟨none, none, none⟩).2
      = .error (.valueError "Don\x27t know where that is: \x27between") :=
  claim_C6 { defaultEndpoint with response_placement := "between" } ctx0 ops0
    [("subject", "acct:foo@example.com")] [] ⟨none, none, none⟩
    (by decide) (by decide) rfl

/-! Claim C7. -/

/-- Claim C7: for an endpoint with response placement `body` and response
format `json`, `do_response` on a non-error response returns a mapping whose
`response` value is the JSON serialization of the response instance and
whose `http_headers` list contains the `(Content-type, application/json)`
entry with the two fixed no-cache headers appended at the end; when no
header list was supplied by the caller, the list is exactly the content-type
entry followed by the two no-cache headers. -/
theorem claim_C7 (e : Endpoint) (ctx : EndpointContext) (ops : SerOps)
    (response_args request : Msg) (kwargs : RespKwargs)
    (hp : e.response_placement = "body") (hf : e.response_format = "json")
    (herr : msg_contains
        (response_info e ctx response_args request kwargs).2 "error" = false) :
    (do_response e ctx ops response_args request kwargs).2
      = .ok (.dict
          (.str (ops.to_json (response_info e ctx response_args request kwargs).2))
          (some (finish_http_headers kwargs "application/json")))
    ∧ ("Content-type", "application/json")
        ∈ finish_http_headers kwargs "application/json"
    ∧ (∃ pre, finish_http_headers kwargs "application/json"
        = pre ++ OAUTH2_NOCACHE_HEADERS)
    ∧ (kwargs.http_headers = none →
        finish_http_headers kwargs "application/json"
          = ("Content-type", "application/json") :: OAUTH2_NOCACHE_HEADERS) := by
  refine ⟨?_, ?_, ?_, ?_⟩
  · simp [do_response, herr, hp, hf]
  · unfold finish_http_headers
    cases hh : kwargs.http_headers with
    | none => simp
    | some hs =>
      simp only [hh]
      exact List.mem_append_left _ (set_content_type_mem hs "application/json")
  · exact ⟨_, rfl⟩
  · intro hh
    simp [finish_http_headers, hh]

/-- Claim C7, witness: the statement evaluated on the default endpoint with
no caller-supplied header list. -/
theorem claim_C7_witness :
    (do_response defaultEndpoint ctx0 ops0
        [("subject", "acct:foo@example.com")] [] ⟨none, none, none⟩).2
      = .ok (.dict (.str (ops0.to_json [("subject", "acct:foo@example.com")]))
          (some (finish_http_headers ⟨none, none, none⟩ "application/json")))
    ∧ ("Content-type", "application/json")
        ∈ finish_http_headers (⟨none, none, none⟩ : RespKwargs) "application/json"
    ∧ (∃ pre, finish_http_headers (⟨none, none, none⟩ : RespKwargs) "application/json"
        = pre ++ OAUTH2_NOCACHE_HEADERS)
    ∧ finish_http_headers (⟨none, none, none⟩ : RespKwargs) "application/json"
        = ("Content-type", "application/json") :: OAUTH2_NOCACHE_HEADERS := by
  have h := claim_C7 defaultEndpoint ctx0 ops0
    [("subject", "acct:foo@example.com")] [] ⟨none, none, none⟩ rfl rfl rfl
  exact ⟨h.1, h.2.1, h.2.2.1, h.2.2.2 rfl⟩

/-! Claim C8. -/

/-- Claim C8: for an endpoint with request format `url` and a nonempty raw
request string, the decoding step of `parse_request` deserializes exactly
the query component of the URL as form-urlencoded parameters (scheme, host,
path and fragment contribute nothing); in particular the full pipeline on
`https://op.example/authorize?foo=bar&baz=qux` yields a request holding
exactly `foo = bar` and `baz = qux`. -/
theorem claim_C8 (e : Endpoint) (ctx : EndpointContext)
    (des : String → String → Msg) (jwt : String → String → Bool → Msg)
    (hfmt : e.request_format = "url") :
    (∀ s : String, s ≠ "" →
      decode_request e ctx (.str s) des jwt = des (urlparse s).query "urlencoded")
    ∧ (parse_request { defaultEndpoint with request_format := "url" } ctx0
        (.str "https://op.example/authorize?foo=bar&baz=qux") none des0 jwt0
        authnNone verifyOk []).2
      = .ok [("foo", "bar"), ("baz", "qux")] := by
  constructor
  · intro s hs
    simp [decode_request, hs, hfmt]
  · rfl

/-- Claim C8, witness: the decoding equation evaluated on the concrete URL
of the claim. -/
theorem claim_C8_witness :
    decode_request { defaultEndpoint with request_format := "url" } ctx0
        (.str "https://op.example/authorize?foo=bar&baz=qux") des0 jwt0
      = des0 (urlparse "https://op.example/authorize?foo=bar&baz=qux").query
          "urlencoded"
    ∧ (parse_request { defaultEndpoint with request_format := "url" } ctx0
        (.str "https://op.example/authorize?foo=bar&baz=qux") none des0 jwt0
        authnNone verifyOk []).2
      = .ok [("foo", "bar"), ("baz", "qux")] :=
  ⟨(claim_C8 { defaultEndpoint with request_format := "url" } ctx0 des0 jwt0
      rfl).1 "https://op.example/authorize?foo=bar&baz=qux" (by decide),
   (claim_C8 { defaultEndpoint with request_format := "url" } ctx0 des0 jwt0
      rfl).2⟩

/-! Claim C9. -/

/-- Claim C9: no pipeline operation writes onto the endpoint object: after
`parse_request`, `client_authentication`, the three hook-chain runners,
`construct`, `response_info` and `do_response`, the endpoint — and with it
every instance field `__init__` sets (`keyjar`, `pre_construct`,
`post_construct`, `post_parse_request`, `kwargs`) — is unchanged. -/
theorem claim_C9 (e : Endpoint) (ctx : EndpointContext) (raw : RawRequest)
    (auth : Option String)
    (des : String → String → Msg) (jwt : String → String → Bool → Msg)
    (vc : EndpointContext → Msg → Option String → AuthnOutcome)
    (verify : Msg → String → String → Except VerifyError Unit) (kw : Kw)
    (ops : SerOps) (response_args request : Msg) (cid : String)
    (rkw : RespKwargs) :
    (parse_request e ctx raw auth des jwt vc verify kw).1 = e
    ∧ (client_authentication e ctx request auth vc).1 = e
    ∧ (do_post_parse_request e ctx request cid kw).1 = e
    ∧ (do_pre_construct e ctx response_args request rkw).1 = e
    ∧ (do_post_construct e ctx response_args request rkw).1 = e
    ∧ (construct e ctx response_args request rkw).1 = e
    ∧ (response_info e ctx response_args request rkw).1 = e
    ∧ (do_response e ctx ops response_args request rkw).1 = e := by
  have htail : ∀ res, (parse_request_tail e ctx res verify kw).1 = e := by
    intro res
    cases res with
    | abort err => rfl
    | cont r c =>
      cases hv : verify r e.keyjar c with
      | ok u => simp only [parse_request_tail, hv]
      | error err => cases err <;> simp only [parse_request_tail, hv]
  exact ⟨htail _, rfl, rfl, rfl, rfl, rfl, rfl, rfl⟩

/-! Claim C10. -/

/-- Claim C10: for an endpoint with response placement `url` and a non-error
response, the header list `do_response` returns is exactly the two fixed
no-cache headers: a caller-supplied `http_headers` keyword argument is
discarded rather than extended, because no content type is determined for
url placement. -/
theorem claim_C10 (e : Endpoint) (ctx : EndpointContext) (ops : SerOps)
    (response_args request : Msg) (kwargs : RespKwargs) (uri : String)
    (hp : e.response_placement = "url")
    (herr : msg_contains
        (response_info e ctx response_args request kwargs).2 "error" = false)
    (huri : kwargs.return_uri = some uri) :
    (do_response e ctx ops response_args request kwargs).2
      = .ok (.dict
          (.str (ops.request (response_info e ctx response_args request kwargs).2
            uri (match kwargs.fragment_enc with | some b => b | none => false)))
          (some OAUTH2_NOCACHE_HEADERS)) := by
  have hfin : finish_http_headers kwargs "" = OAUTH2_NOCACHE_HEADERS := by
    simp [finish_http_headers]
  cases hfe : kwargs.fragment_enc with
  | none =>
    simp [do_response, herr, hp, huri, hfe, hfin]
  | some b =>
    cases b <;> simp [do_response, herr, hp, huri, hfe, hfin]

/-- Claim C10, witness: the statement evaluated with a caller-supplied
header list, which does not survive into the result. -/
theorem claim_C10_witness :
    (do_response { defaultEndpoint with response_placement := "url" } ctx0
        ops0 [("code", "xyz")] []
        ⟨some [("X", "y")], none, some "https://rp.example/cb"⟩).2
      = .ok (.dict (.str (ops0.request [("code", "xyz")]
          "https://rp.example/cb" false)) (some OAUTH2_NOCACHE_HEADERS)) :=
  claim_C10 { defaultEndpoint with response_placement := "url" } ctx0 ops0
    [("code", "xyz")] [] ⟨some [("X", "y")], none, some "https://rp.example/cb"⟩
    "https://rp.example/cb" rfl rfl rfl

end Oidcendpoint
